import Mathlib

/-!
Verification of the Legends-Notifier notification console against its
specification.  The definitions below are a shallow embedding of the
TypeScript source:

* `Json` models the JavaScript/JSON values moved across the HTTP boundary;
  `jsTruthy` models JavaScript truthiness, `getField` property access, and
  `stringifyPretty` models `JSON.stringify(v, null, 2)`.
* The API layer (`src/lib/api.ts`) is modelled as functions over an abstract
  `Transport : Request -> Except TransportErr Json`; the read operations
  swallow transport errors into `[]`, the write operations rethrow them.
* The send flow of `SendNotificationModal.tsx` (`handleSend`), the diff of
  edited fields against the captured snapshot, and the schedule handlers of
  `EditScheduleModal.tsx` / the schedule modal are modelled as pure
  functions from component state (plus an environment fixing the outcome of
  the network calls) to the list of API calls issued and the final outcome.
* The login gate of the auth context is modelled by `login`.
-/

/-- JSON values as exchanged with the upstream handlers. -/
inductive Json where
  | null
  | bool (b : Bool)
  | num (n : Int)
  | str (s : String)
  | arr (items : List Json)
  | obj (fields : List (String × Json))
deriving Repr

/-- JavaScript truthiness of a JSON value: `null`, `false`, `0` and the
empty string are falsy; arrays and objects are always truthy. -/
def jsTruthy : Json → Bool
  | .null => false
  | .bool b => b
  | .num n => n != 0
  | .str s => s != ""
  | .arr _ => true
  | .obj _ => true

/-- Property access `v.k`: `some` when `v` is an object with field `k`. -/
def getField : Json → String → Option Json
  | .obj fs, k => fs.lookup k
  | _, _ => none

/-- `a || b` on JavaScript values where `a` is a possibly-missing field:
an absent or falsy value falls through to the default. -/
def jsOrJ (o : Option Json) (d : Json) : Json :=
  match o with
  | some v => if jsTruthy v then v else d
  | none => d

/-- `a || undefined`: keep a truthy field value, otherwise absent. -/
def jsOrUndef (o : Option Json) : Option Json :=
  match o with
  | some v => if jsTruthy v then some v else none
  | none => none

/-- `Array.isArray(v)`. -/
def isArray : Json → Bool
  | .arr _ => true
  | _ => false

/-- `v && typeof v === 'object' && Array.isArray(v.k) ? v.k : undefined`:
the array-valued field `k` of an object payload, if present. -/
def getArrayField (d : Json) (k : String) : Option (List Json) :=
  match d with
  | .obj fs =>
    match fs.lookup k with
    | some (.arr xs) => some xs
    | _ => none
  | _ => none

/-- Escape of one character inside a JSON string literal. -/
def jsonEscapeChar (c : Char) : String :=
  if c = '"' then "\\\""
  else if c = '\\' then "\\\\"
  else if c = '\n' then "\\n"
  else String.singleton c

/-- Escape of a string for embedding in JSON output. -/
def jsonEscape (s : String) : String :=
  String.join (s.toList.map jsonEscapeChar)

/-- A JSON string literal with quotes. -/
def jsonQuote (s : String) : String :=
  "\"" ++ jsonEscape s ++ "\""

/-- Two-space indentation at depth `d`, as produced by
`JSON.stringify(v, null, 2)`. -/
def jsonIndent (d : Nat) : String :=
  String.join (List.replicate d "  ")

mutual
/-- `JSON.stringify(v, null, 2)` at nesting depth `d`. -/
def stringifyAt : Nat → Json → String
  | _, .null => "null"
  | _, .bool b => if b then "true" else "false"
  | _, .num n => toString n
  | _, .str s => jsonQuote s
  | _, .arr [] => "[]"
  | d, .arr (x :: xs) =>
    "[\n" ++ String.intercalate ",\n" (stringifyList (d + 1) (x :: xs)) ++
      "\n" ++ jsonIndent d ++ "]"
  | _, .obj [] => "\x7b\x7d"
  | d, .obj (f :: fs) =>
    "\x7b\n" ++ String.intercalate ",\n" (stringifyFields (d + 1) (f :: fs)) ++
      "\n" ++ jsonIndent d ++ "\x7d"

/-- Stringify the items of an array, each on its own indented line. -/
def stringifyList : Nat → List Json → List String
  | _, [] => []
  | d, x :: xs => (jsonIndent d ++ stringifyAt d x) :: stringifyList d xs

/-- Stringify the fields of an object, each on its own indented line. -/
def stringifyFields : Nat → List (String × Json) → List String
  | _, [] => []
  | d, (k, v) :: fs =>
    (jsonIndent d ++ jsonQuote k ++ ": " ++ stringifyAt d v) :: stringifyFields d fs
end

/-- `JSON.stringify(v, null, 2)`. -/
def stringifyPretty (j : Json) : String :=
  stringifyAt 0 j

/-- A transport-level failure (axios rejection). -/
structure TransportErr where
  message : String
deriving Repr, DecidableEq

/-- One HTTP request issued through the axios instance. -/
inductive Request where
  | get (path : String)
  | post (path : String) (body : Json)
  | patch (path : String) (body : Json)
deriving Repr

/-- The opaque HTTP collaborator: each request either yields a JSON payload
(`response.data`) or fails with a transport error. -/
def Transport : Type :=
  Request → Except TransportErr Json

/-- A transport whose every response carries payload `d`. -/
def constOk (d : Json) : Transport :=
  fun _ => Except.ok d

/-- A transport that fails every request with error `e`. -/
def constErr (e : TransportErr) : Transport :=
  fun _ => Except.error e

/-- `fetchUsers` (src/lib/api.ts:61-90): accepts a bare array, an object
with a `users` array, or an object with a `data` array; anything else, and
any transport error, yields the empty list. -/
def fetchUsers (t : Transport) : List Json :=
  match t (.get "/fetchUsersHandler") with
  | .error _ => []
  | .ok d =>
    match d with
    | .arr xs => xs
    | _ =>
      match getArrayField d "users" with
      | some xs => xs
      | none =>
        match getArrayField d "data" with
        | some xs => xs
        | none => []

/-- A notification entity after per-entity normalization
(src/lib/api.ts:119-133 and 159-169). -/
structure NotifOut where
  id : Json
  title : Json
  body : Json
  data : Json
  createdAt : Json
  createdBy : Json
  targetTokens : Json
  status : Json
  sendAt : Option Json
deriving Repr

/-- The per-entity transform applied by both `fetchNotifications`
(src/lib/api.ts:119-133) and `fetchScheduledNotifications`
(src/lib/api.ts:159-169), which contain this mapping verbatim:
each missing or falsy field is filled with a deterministic default, and the
id falls back from `id` to `docId` to the synthetic
`notification-<index>`. -/
def normalizeNotification (index : Nat) (notif : Json) : NotifOut :=
  { id := jsOrJ (getField notif "id")
      (jsOrJ (getField notif "docId") (.str ("notification-" ++ toString index)))
    title := jsOrJ (getField notif "title") (.str "")
    body := jsOrJ (getField notif "body") (.str "")
    data := jsOrJ (getField notif "data") (.obj [])
    createdAt := jsOrJ (getField notif "createdAt")
      (jsOrJ (getField notif "created_at") (.str ""))
    createdBy := jsOrJ (getField notif "createdBy") (.str "system")
    targetTokens := jsOrJ (getField notif "targetTokens") (.arr [])
    status := jsOrJ (getField notif "status") (.str "pending")
    sendAt := jsOrUndef (getField notif "sendAt") }

/-- `list.map((notif, index) => normalize(index, notif))`. -/
def normalizeAll (xs : List Json) : List NotifOut :=
  xs.enum.map (fun p => normalizeNotification p.1 p.2)

/-- `fetchNotifications` (src/lib/api.ts:92-139): bare array first, then a
`notifications` array field, then a `data` array field; other shapes and
transport errors yield the empty list; the accepted list is normalized
entity by entity. -/
def fetchNotifications (t : Transport) : List NotifOut :=
  match t (.get "/fetchNotificationsHandler") with
  | .error _ => []
  | .ok d =>
    match d with
    | .arr xs => normalizeAll xs
    | _ =>
      match getArrayField d "notifications" with
      | some xs => normalizeAll xs
      | none =>
        match getArrayField d "data" with
        | some xs => normalizeAll xs
        | none => []

/-- `fetchScheduledNotifications` (src/lib/api.ts:141-174): an object with
a `notifications` array is checked first, then a bare array; other shapes
and transport errors yield the empty list. -/
def fetchScheduledNotifications (t : Transport) : List NotifOut :=
  match t (.get "/fetchScheduledNotificationsHandler") with
  | .error _ => []
  | .ok d =>
    match getArrayField d "notifications" with
    | some xs => normalizeAll xs
    | none =>
      match d with
      | .arr xs => normalizeAll xs
      | _ => []

/-- `fetchUserGroups` (src/lib/api.ts:176-194): an object with a `groups`
array is checked first, then a bare array; other shapes and transport
errors yield the empty list. -/
def fetchUserGroups (t : Transport) : List Json :=
  match t (.get "/fetchUserGroupsHandler") with
  | .error _ => []
  | .ok d =>
    match getArrayField d "groups" with
    | some xs => xs
    | none =>
      match d with
      | .arr xs => xs
      | _ => []

/-- Replace the value of key `k` in place, or append it — the update step
used to model a JavaScript object spread overriding earlier fields. -/
def setKey : List (String × Json) → String → Json → List (String × Json)
  | [], k, v => [(k, v)]
  | (k', v') :: rest, k, v =>
    if k' = k then (k, v) :: rest else (k', v') :: setKey rest k v

/-- Merge the fields of an overriding object into base fields, later keys
winning, insertion order preserved — models `\x7b ...base, ...override \x7d`. -/
def mergeFields (base : List (String × Json)) : List (String × Json) → List (String × Json)
  | [] => base
  | (k, v) :: fs => mergeFields (setKey base k v) fs

/-- `\x7b ...computed defaults, ...segment \x7d`: the segment's own object
fields override the computed ones (spread comes last in the source).
Non-object segments contribute no fields of their own. -/
def spreadOnto (base : List (String × Json)) (seg : Json) : Json :=
  match seg with
  | .obj fs => .obj (mergeFields base fs)
  | _ => .obj base

/-- The mapping applied to each element of `segmentsWithIds`
(src/lib/api.ts:319-325). -/
def segMapWithIds (segment : Json) : Json :=
  spreadOnto
    [ ("id", jsOrJ (getField segment "id") (.str ""))
    , ("name", jsOrJ (getField segment "segmentName")
        (jsOrJ (getField segment "name") (.str "")))
    , ("segmentId", jsOrJ (getField segment "segmentId") (.str ""))
    , ("segmentName", jsOrJ (getField segment "segmentName") (.str "")) ]
    segment

/-- The mapping applied to each element in the bare-array and `segments`
fallbacks of `fetchSegments` (src/lib/api.ts:330-336 and 341-347). -/
def segMapIndexed (index : Nat) (segment : Json) : Json :=
  spreadOnto
    [ ("id", jsOrJ (getField segment "id")
        (jsOrJ (getField segment "segmentId") (.str ("segment-" ++ toString index))))
    , ("name", jsOrJ (getField segment "segmentName")
        (jsOrJ (getField segment "name") (.str "")))
    , ("segmentId", jsOrJ (getField segment "segmentId") (.str ""))
    , ("segmentName", jsOrJ (getField segment "segmentName")
        (jsOrJ (getField segment "name") (.str ""))) ]
    segment

/-- `fetchSegments` (src/lib/api.ts:312-356): a `segmentsWithIds` array is
checked first, then a bare array, then a `segments` array; other shapes and
transport errors yield the empty list. -/
def fetchSegments (t : Transport) : List Json :=
  match t (.get "https://us-central1-premier-ikon.cloudfunctions.net/fetchSegmentNamesHandler") with
  | .error _ => []
  | .ok d =>
    match getArrayField d "segmentsWithIds" with
    | some xs => xs.map segMapWithIds
    | none =>
      match d with
      | .arr xs => (xs.enum.map (fun p => segMapIndexed p.1 p.2))
      | _ =>
        match getArrayField d "segments" with
        | some xs => (xs.enum.map (fun p => segMapIndexed p.1 p.2))
        | none => []

/-- `fetchSegmentUsers` (src/lib/api.ts:367-397): same accepted shapes as
`fetchUsers`; other shapes and transport errors yield the empty list. -/
def fetchSegmentUsers (t : Transport) (segmentId : String) : List Json :=
  match t (.get ("https://us-central1-premier-ikon.cloudfunctions.net/matchUsersToSegmentsHandler?segmentName=" ++ segmentId)) with
  | .error _ => []
  | .ok d =>
    match d with
    | .arr xs => xs
    | _ =>
      match getArrayField d "users" with
      | some xs => xs
      | none =>
        match getArrayField d "data" with
        | some xs => xs
        | none => []

/-- `saveNotification` (src/lib/api.ts:196-204): posts the payload and
rethrows any transport error. -/
def saveNotification (t : Transport) (payload : Json) : Except TransportErr Json :=
  match t (.post "/saveNotificationHandler" payload) with
  | .error e => .error e
  | .ok r => .ok r

/-- `updateNotification` (src/lib/api.ts:232-240): patches the partial
payload and rethrows any transport error. -/
def updateNotification (t : Transport) (payload : Json) : Except TransportErr Json :=
  match t (.patch "/updateNotificationHandler" payload) with
  | .error e => .error e
  | .ok r => .ok r

/-- The argument of `executeNotification`: either the old string form
(just a notification id) or the payload-object form. -/
inductive ExecArg where
  | byId (notificationId : String)
  | byPayload (payload : Json)

/-- `executeNotification` (src/lib/api.ts:242-256): wraps a bare id into
`\x7bnotificationId\x7d`, posts, and rethrows any transport error. -/
def executeNotification (t : Transport) (arg : ExecArg) : Except TransportErr Unit :=
  match arg with
  | .byId nid =>
    match t (.post "/executeNotificationHandler" (.obj [("notificationId", .str nid)])) with
    | .error e => .error e
    | .ok _ => .ok ()
  | .byPayload p =>
    match t (.post "/executeNotificationHandler" p) with
    | .error e => .error e
    | .ok _ => .ok ()

/-- `deleteNotification` (src/lib/api.ts:263-272): posts the wrapped id and
rethrows any transport error. -/
def deleteNotification (t : Transport) (notificationId : String) : Except TransportErr Json :=
  match t (.post "/deleteNotificationHandler" (.obj [("notificationId", .str notificationId)])) with
  | .error e => .error e
  | .ok r => .ok r

/-- `updateOrCancelScheduledNotification` (src/lib/api.ts:292-302): patches
the payload and rethrows any transport error. -/
def updateOrCancelScheduledNotification (t : Transport) (payload : Json) : Except TransportErr Json :=
  match t (.patch "/updateOrCancelScheduledNotificationHandler" payload) with
  | .error e => .error e
  | .ok r => .ok r

/-- The authentication context state: the in-memory flag and the
`legends_notifier_auth` localStorage slot. -/
structure AuthState where
  isAuthenticated : Bool
  storage : Option String
deriving Repr, DecidableEq

/-- The only accepted username (auth context). -/
def VALID_USERNAME : String := "admin"

/-- The only accepted password (auth context). -/
def VALID_PASSWORD : String := "bacon"

/-- `login` of the auth context: on the exact credential pair it sets the
authenticated flag, writes the storage slot and returns `true`; on any
other pair it returns `false` and leaves the state untouched. -/
def login (username password : String) (st : AuthState) : Bool × AuthState :=
  if username = VALID_USERNAME ∧ password = VALID_PASSWORD then
    (true, { isAuthenticated := true, storage := some "authenticated" })
  else
    (false, st)

/-- `logout` of the auth context. -/
def logout (_st : AuthState) : AuthState :=
  { isAuthenticated := false, storage := none }

/-- A user/device record as consumed by the send modal. -/
structure UserRec where
  id : Option String
  userId : Option String
  token : Option String
deriving Repr, DecidableEq

/-- JavaScript truthiness of an optional string (absent and `""` falsy). -/
def jsTruthyStr (o : Option String) : Bool :=
  match o with
  | some s => s != ""
  | none => false

/-- `a || b` for an optional string against a string default. -/
def jsStrOr (o : Option String) (d : String) : String :=
  match o with
  | some s => if s = "" then d else s
  | none => d

/-- `x || y` for two plain strings (empty string falls through). -/
def jsStrOrStr (x y : String) : String :=
  if x = "" then y else x

/-- JavaScript's `s.trim()`: strip leading and trailing whitespace.
(Modelled structurally over the character list so concrete instances
evaluate; agrees with the ECMAScript behaviour on the ASCII whitespace
relevant here.) -/
def jsTrim (s : String) : String :=
  ⟨((s.data.dropWhile Char.isWhitespace).reverse.dropWhile Char.isWhitespace).reverse⟩

/-- `user.id || user.userId || ''` — the identity key used to match a user
record against the selected-user id list
(SendNotificationModal.tsx:125). -/
def userKey (u : UserRec) : String :=
  jsStrOr u.id (jsStrOr u.userId "")

/-- `user.token && typeof user.token === 'string'` — eligibility of a user
record as a delivery target (SendNotificationModal.tsx:120). -/
def hasTokenStr (u : UserRec) : Bool :=
  jsTruthyStr u.token

/-- The `AllUsers` resolution of the send modal
(SendNotificationModal.tsx:119-121): filter the fetched directory down to
records with a non-empty string token and map out the tokens.  No
deduplication is performed. -/
def resolveAllUsers (allUsers : List UserRec) : List String :=
  (allUsers.filter (fun u => hasTokenStr u)).map (fun u => u.token.getD "")

/-- The custom-selection resolution of the send modal
(SendNotificationModal.tsx:124-130): keep the records whose identity key is
among the selected ids, then filter/map tokens as in the all-users path. -/
def resolveSelected (users : List UserRec) (selectedUsers : List String) : List String :=
  ((users.filter (fun u => selectedUsers.contains (userKey u))).filter
      (fun u => hasTokenStr u)).map (fun u => u.token.getD "")

/-- The recipient dropdown of the send modal. -/
inductive RecipientOption where
  | all
  | custom
deriving Repr, DecidableEq

/-- The send modal's component state at the moment `handleSend` runs:
the editable fields, the recipient selection, the user list and selected
ids for the custom path, the snapshot of original values captured when the
modal opened, and the notification id (if the entity carries one). -/
structure SendState where
  title : String
  body : String
  jsonData : String
  jsonError : String
  recipientOption : RecipientOption
  users : List UserRec
  selectedUsers : List String
  originalTitle : String
  originalBody : String
  originalData : String
  notificationId : Option String
deriving Repr, DecidableEq

/-- Outcomes of the network calls `handleSend` may issue, fixed up front:
the fresh directory returned by `fetchUsers` (which never throws), and
whether `updateNotification` / `executeNotification` reject. -/
structure SendEnv where
  fetchUsersResult : List UserRec
  updateFails : Bool
  executeFails : Bool
deriving Repr, DecidableEq

/-- The value placed in a `data` payload slot: `JSON.parse(jsonData)` is
modelled by the verbatim JSON text it parses (`parsedFrom`), and the
explicit empty object written when the data text is blank by `emptyObj`.
(`handleSend` only runs with `jsonError` clear, so the parse succeeds.) -/
inductive DataVal where
  | parsedFrom (src : String)
  | emptyObj
deriving Repr, DecidableEq

/-- The partial-update payload built before dispatch
(SendNotificationModal.tsx:147-159): always the notification id, plus only
the fields the diff reported changed. -/
structure UpdatePayload where
  notificationId : String
  title : Option String
  body : Option String
  data : Option DataVal
deriving Repr, DecidableEq

/-- The dispatch payload (SendNotificationModal.tsx:169-186): the resolved
tokens, the id when present, and the current trimmed title/body plus the
current data when non-blank. -/
structure ExecutePayload where
  targetTokens : List String
  notificationId : Option String
  title : String
  body : String
  data : Option DataVal
deriving Repr, DecidableEq

/-- The API calls `handleSend` can issue, in order. -/
inductive ApiCall where
  | fetchUsersCall
  | updateCall (p : UpdatePayload)
  | executeCall (p : ExecutePayload)
deriving Repr, DecidableEq

/-- The user-visible outcome of `handleSend`: the three local aborts, a
successful send, or a failed dispatch. -/
inductive SendOutcome where
  | jsonErrorAbort
  | missingFieldsAbort
  | emptyTokensAbort
  | sent
  | sendFailed
deriving Repr, DecidableEq

/-- The change flags computed by `handleSend`
(SendNotificationModal.tsx:139-141): each flag compares the trimmed current
text against the captured original string by plain string inequality —
the original is not re-trimmed and the data strings are never parsed for
this comparison. -/
def diffFlags (originalTitle originalBody originalData title body jsonData : String) :
    Bool × Bool × Bool :=
  (jsTrim title != originalTitle, jsTrim body != originalBody, jsTrim jsonData != originalData)

/-- `titleChanged || bodyChanged || dataChanged`
(SendNotificationModal.tsx:142). -/
def wasEditedFlag (st : SendState) : Bool :=
  (diffFlags st.originalTitle st.originalBody st.originalData st.title st.body st.jsonData).1 ||
  (diffFlags st.originalTitle st.originalBody st.originalData st.title st.body st.jsonData).2.1 ||
  (diffFlags st.originalTitle st.originalBody st.originalData st.title st.body st.jsonData).2.2

/-- The snapshot of the original data text captured when the modal opens
(SendNotificationModal.tsx:41):
`notification.data ? JSON.stringify(notification.data, null, 2) : ''`. -/
def captureOriginalData (data : Option Json) : String :=
  match data with
  | some d => if jsTruthy d then stringifyPretty d else ""
  | none => ""

/-- The calls issued before the empty-audience check: the `AllUsers` path
fetches the directory fresh, the custom path uses the already-loaded
list. -/
def preCalls (st : SendState) : List ApiCall :=
  match st.recipientOption with
  | .all => [ApiCall.fetchUsersCall]
  | .custom => []

/-- The audience resolved by `handleSend` (SendNotificationModal.tsx:113-131)
for the given state and fresh directory. -/
def resolvedTokens (st : SendState) (env : SendEnv) : List String :=
  match st.recipientOption with
  | .all => resolveAllUsers env.fetchUsersResult
  | .custom => resolveSelected st.users st.selectedUsers

/-- The partial-update payload for the current state
(SendNotificationModal.tsx:147-159). -/
def updatePayloadOf (st : SendState) : UpdatePayload :=
  { notificationId := st.notificationId.getD ""
    title := if (diffFlags st.originalTitle st.originalBody st.originalData
        st.title st.body st.jsonData).1 then some (jsTrim st.title) else none
    body := if (diffFlags st.originalTitle st.originalBody st.originalData
        st.title st.body st.jsonData).2.1 then some (jsTrim st.body) else none
    data := if (diffFlags st.originalTitle st.originalBody st.originalData
        st.title st.body st.jsonData).2.2 then
        some (if jsTrim st.jsonData != "" then DataVal.parsedFrom st.jsonData
          else DataVal.emptyObj)
      else none }

/-- The dispatch payload for the current state
(SendNotificationModal.tsx:169-186). -/
def executePayloadOf (st : SendState) (env : SendEnv) : ExecutePayload :=
  { targetTokens := resolvedTokens st env
    notificationId := if jsTruthyStr st.notificationId then
        some (st.notificationId.getD "") else none
    title := jsTrim st.title
    body := jsTrim st.body
    data := if jsTrim st.jsonData != "" then some (DataVal.parsedFrom st.jsonData)
      else none }

/-- `handleSend` (SendNotificationModal.tsx:99-203): abort on a standing
JSON error or blank trimmed title/body; resolve the audience; abort when
it is empty; when the diff reports an edit and an id is present, issue the
partial update first (its failure is logged and swallowed — the trace and
outcome do not depend on `env.updateFails`); finally dispatch, reporting
failure only if the dispatch itself rejects. -/
def handleSend (st : SendState) (env : SendEnv) : List ApiCall × SendOutcome :=
  if st.jsonError != "" then ([], .jsonErrorAbort)
  else if jsTrim st.title = "" || jsTrim st.body = "" then ([], .missingFieldsAbort)
  else if (resolvedTokens st env).length = 0 then (preCalls st, .emptyTokensAbort)
  else
    let updCalls :=
      if wasEditedFlag st && jsTruthyStr st.notificationId then
        [ApiCall.updateCall (updatePayloadOf st)]
      else []
    (preCalls st ++ updCalls ++ [ApiCall.executeCall (executePayloadOf st env)],
      if env.executeFails then .sendFailed else .sent)

/-- The state of `EditScheduleModal` when `handleUpdate` runs. -/
structure ScheduleState where
  notificationId : Option String
  sendAtDate : String
  sendAtTime : String
  selectedUserGroup : String
deriving Repr, DecidableEq

/-- The user-visible outcome of a schedule update. -/
inductive ScheduleOutcome where
  | missingId
  | missingDateTime
  | updated
  | updateFailed
deriving Repr, DecidableEq

/-- The write a schedule handler can issue. -/
inductive ScheduleCall where
  | updateOrCancelCall (notificationId : String) (sendAt : String) (userGroup : String)
  | updateCall (notificationId : String) (sendAt : String) (status : String) (userGroup : String)
deriving Repr, DecidableEq

/-- `new Date(date + "T" + time).toISOString()` modelled up to timezone
normalization: on these fixed-width `YYYY-MM-DDTHH:MM` strings the
chronological order coincides with the lexicographic string order. -/
def combineIso (date time : String) : String :=
  date ++ "T" ++ time

/-- Strict lexicographic order on character lists. -/
def charListLt : List Char → List Char → Bool
  | [], [] => false
  | [], _ :: _ => true
  | _ :: _, [] => false
  | a :: as, b :: bs => if a < b then true else if a = b then charListLt as bs else false

/-- Chronological strict order of two equal-format ISO date-time strings:
on fixed-width `YYYY-MM-DDTHH:MM` strings this lexicographic comparison is
exactly "the first instant is strictly earlier than the second". -/
def isoBefore (a b : String) : Bool :=
  charListLt a.data b.data

/-- `handleUpdate` (EditScheduleModal.tsx:83-117): abort when the
notification id is absent or the date/time fields are blank; otherwise
issue the upstream write with the converted `sendAt` and the selected user
group (empty falling back to `allUsers`).  `now`, the clock at validation
time, is a parameter only so the absence of any past-date guard can be
stated: the body never consults it. -/
def handleUpdate (st : ScheduleState) (now : String) (updateFails : Bool) :
    List ScheduleCall × ScheduleOutcome :=
  if !(jsTruthyStr st.notificationId) then ([], .missingId)
  else if st.sendAtDate = "" || st.sendAtTime = "" then ([], .missingDateTime)
  else
    ([ScheduleCall.updateOrCancelCall (st.notificationId.getD "")
        (combineIso st.sendAtDate st.sendAtTime)
        (jsStrOrStr st.selectedUserGroup "allUsers")],
      if updateFails then .updateFailed else .updated)

/-- The state of the schedule modal's existing-notification path when
`handleScheduleExisting` runs (`selectedNotificationId` is the id of the
selected notification, `none` when nothing is selected). -/
structure ScheduleExistingState where
  selectedNotificationId : Option String
  sendAtDate : String
  sendAtTime : String
  selectedUserGroup : String
deriving Repr, DecidableEq

/-- `handleScheduleExisting` (in the schedule modal, NewNotification.tsx
related source lines 332-365): abort when no notification is selected or
the date/time fields are blank; otherwise patch the notification with the
converted `sendAt`, status `pending` and the selected user group.  As in
`handleUpdate`, the clock `now` is never consulted. -/
def handleScheduleExisting (st : ScheduleExistingState) (now : String) (updateFails : Bool) :
    List ScheduleCall × ScheduleOutcome :=
  if st.selectedNotificationId.isNone then ([], .missingId)
  else if st.sendAtDate = "" || st.sendAtTime = "" then ([], .missingDateTime)
  else
    ([ScheduleCall.updateCall (st.selectedNotificationId.getD "")
        (combineIso st.sendAtDate st.sendAtTime) "pending"
        (jsStrOrStr st.selectedUserGroup "allUsers")],
      if updateFails then .updateFailed else .updated)

/-- Claim C10: for every (username, password) pair, `login` returns `true`
and sets the authenticated state (flag and storage slot) exactly when the
pair is ("admin", "bacon"); on every other pair it returns `false` and
leaves the authentication state unchanged. -/
theorem login_succeeds_iff_valid_credentials :
    ∀ (u p : String) (st : AuthState),
      login u p st =
        if u = "admin" ∧ p = "bacon" then
          (true, { isAuthenticated := true, storage := some "authenticated" })
        else (false, st) := by
  intro u p st
  rfl

/-- Claim C9: the API boundary's error contract is asymmetric — on a
transport that fails every request with error `e`, each of the six read
operations returns the empty list, while each of the five write operations
rethrows `e` to its caller. -/
theorem api_error_contract_asymmetric (e : TransportErr) (t : Transport)
    (h : ∀ r, t r = Except.error e) (payload : Json) (arg : ExecArg)
    (nid sid : String) :
    fetchUsers t = [] ∧ fetchNotifications t = [] ∧
    fetchScheduledNotifications t = [] ∧ fetchUserGroups t = [] ∧
    fetchSegments t = [] ∧ fetchSegmentUsers t sid = [] ∧
    saveNotification t payload = Except.error e ∧
    updateNotification t payload = Except.error e ∧
    executeNotification t arg = Except.error e ∧
    deleteNotification t nid = Except.error e ∧
    updateOrCancelScheduledNotification t payload = Except.error e := by
  refine ⟨?_, ?_, ?_, ?_, ?_, ?_, ?_, ?_, ?_, ?_, ?_⟩ <;>
    first
      | simp [fetchUsers, fetchNotifications, fetchScheduledNotifications,
          fetchUserGroups, fetchSegments, fetchSegmentUsers, saveNotification,
          updateNotification, deleteNotification,
          updateOrCancelScheduledNotification, h]
      | (cases arg <;> simp [executeNotification, h])

/-- Claim C9 witness: the contract evaluated on a concrete always-failing
transport with an explicit payload, execute argument and ids. -/
theorem api_error_contract_asymmetric_witness :
    fetchUsers (constErr { message := "boom" }) = [] ∧
    fetchNotifications (constErr { message := "boom" }) = [] ∧
    fetchScheduledNotifications (constErr { message := "boom" }) = [] ∧
    fetchUserGroups (constErr { message := "boom" }) = [] ∧
    fetchSegments (constErr { message := "boom" }) = [] ∧
    fetchSegmentUsers (constErr { message := "boom" }) "seg1" = [] ∧
    saveNotification (constErr { message := "boom" }) (Json.obj []) =
      Except.error { message := "boom" } ∧
    updateNotification (constErr { message := "boom" }) (Json.obj []) =
      Except.error { message := "boom" } ∧
    executeNotification (constErr { message := "boom" }) (ExecArg.byId "n1") =
      Except.error { message := "boom" } ∧
    deleteNotification (constErr { message := "boom" }) "n1" =
      Except.error { message := "boom" } ∧
    updateOrCancelScheduledNotification (constErr { message := "boom" }) (Json.obj []) =
      Except.error { message := "boom" } :=
  api_error_contract_asymmetric { message := "boom" }
    (constErr { message := "boom" }) (fun _ => rfl) (Json.obj [])
    (ExecArg.byId "n1") "n1" "seg1"

/-- Claim C6: on a payload that is neither an array nor an object carrying
the fetcher's recognized array-valued alias field, each list-fetching
normalizer returns the empty list (and, being a total function of the
response, never throws to its caller). -/
theorem normalizers_malformed_payload_empty (d : Json)
    (h1 : isArray d = false)
    (h2 : getArrayField d "users" = none)
    (h3 : getArrayField d "data" = none)
    (h4 : getArrayField d "notifications" = none)
    (h5 : getArrayField d "groups" = none) :
    fetchUsers (constOk d) = [] ∧ fetchNotifications (constOk d) = [] ∧
    fetchScheduledNotifications (constOk d) = [] ∧
    fetchUserGroups (constOk d) = [] := by
  cases d <;>
    simp_all [fetchUsers, fetchNotifications, fetchScheduledNotifications,
      fetchUserGroups, constOk, isArray, getArrayField]

/-- Claim C6 witness: the four normalizers evaluated on a concrete
malformed payload (a bare string). -/
theorem normalizers_malformed_payload_empty_witness :
    fetchUsers (constOk (Json.str "weird")) = [] ∧
    fetchNotifications (constOk (Json.str "weird")) = [] ∧
    fetchScheduledNotifications (constOk (Json.str "weird")) = [] ∧
    fetchUserGroups (constOk (Json.str "weird")) = [] :=
  normalizers_malformed_payload_empty (Json.str "weird") rfl rfl rfl rfl rfl

/-- Claim C8: per-entity normalization fills missing fields
deterministically — absent `status` becomes `"pending"`, absent
`createdBy` becomes `"system"`, absent `data` becomes the empty map,
absent `targetTokens` becomes the empty list, and when both `id` and the
`docId` alias are absent the synthetic positional id
`"notification-<index>"` is assigned; both upstream fetchers apply this
transform to each fetched entity. -/
theorem normalization_fills_deterministic_defaults (n : Json) (i : Nat) :
    (getField n "status" = none →
      (normalizeNotification i n).status = Json.str "pending") ∧
    (getField n "createdBy" = none →
      (normalizeNotification i n).createdBy = Json.str "system") ∧
    (getField n "data" = none →
      (normalizeNotification i n).data = Json.obj []) ∧
    (getField n "targetTokens" = none →
      (normalizeNotification i n).targetTokens = Json.arr []) ∧
    (getField n "id" = none → getField n "docId" = none →
      (normalizeNotification i n).id = Json.str ("notification-" ++ toString i)) ∧
    fetchNotifications (constOk (Json.arr [n])) = [normalizeNotification 0 n] ∧
    fetchScheduledNotifications (constOk (Json.arr [n])) = [normalizeNotification 0 n] := by
  refine ⟨?_, ?_, ?_, ?_, ?_, ?_, ?_⟩
  · intro h; simp [normalizeNotification, jsOrJ, h]
  · intro h; simp [normalizeNotification, jsOrJ, h]
  · intro h; simp [normalizeNotification, jsOrJ, h]
  · intro h; simp [normalizeNotification, jsOrJ, h]
  · intro h h'; simp [normalizeNotification, jsOrJ, h, h']
  · rfl
  · rfl

/-- Claim C8 witness: normalization of a concrete entity with every field
absent, at position 0. -/
theorem normalization_fills_deterministic_defaults_witness :
    (normalizeNotification 0 (Json.obj [])).status = Json.str "pending" ∧
    (normalizeNotification 0 (Json.obj [])).createdBy = Json.str "system" ∧
    (normalizeNotification 0 (Json.obj [])).data = Json.obj [] ∧
    (normalizeNotification 0 (Json.obj [])).targetTokens = Json.arr [] ∧
    (normalizeNotification 0 (Json.obj [])).id = Json.str "notification-0" ∧
    fetchNotifications (constOk (Json.arr [Json.obj []])) =
      [normalizeNotification 0 (Json.obj [])] := by
  have h := normalization_fills_deterministic_defaults (Json.obj []) 0
  exact ⟨h.1 rfl, h.2.1 rfl, h.2.2.1 rfl, h.2.2.2.1 rfl,
    (h.2.2.2.2.1 rfl rfl).trans (by rfl), h.2.2.2.2.2.1⟩

/-- A directory in which the same physical device token appears under two
distinct user records. -/
def dupDirectory : List UserRec :=
  [ { id := some "u1", userId := none, token := some "t1" }
  , { id := some "u2", userId := none, token := some "t1" } ]

/-- Claim C1 counterexample: resolving `AllUsers` over a directory whose
two user records carry the same token "t1" yields the collection
["t1", "t1"] of size 2, while there is exactly 1 distinct non-empty token
— the resolved collection is not deduplicated and its size differs from
the distinct-token count. -/
theorem resolveAllUsers_not_deduplicated :
    resolveAllUsers dupDirectory = ["t1", "t1"] ∧
    (resolveAllUsers dupDirectory).dedup.length = 1 ∧
    (resolveAllUsers dupDirectory).length ≠ (resolveAllUsers dupDirectory).dedup.length := by
  decide

/-- Claim C1 (amended): the `AllUsers` resolution of the send modal keeps
one entry per user record carrying a non-empty string token, duplicates
included — its size equals the number of such records, and each non-empty
token occurs in it exactly as many times as there are user records
carrying that token (rather than exactly once). -/
theorem resolveAllUsers_keeps_multiplicity (dir : List UserRec) (tok : String)
    (h : tok ≠ "") :
    (resolveAllUsers dir).length = (dir.filter (fun u => hasTokenStr u)).length ∧
    (resolveAllUsers dir).count tok =
      (dir.filter (fun u => u.token == some tok)).length := by
  constructor
  · simp [resolveAllUsers]
  · induction dir with
    | nil => simp [resolveAllUsers]
    | cons u rest ih =>
      rcases htok : u.token with _ | s
      · simpa [resolveAllUsers, List.filter_cons, hasTokenStr, jsTruthyStr, htok]
          using ih
      · by_cases hse : s = ""
        · subst hse
          simpa [resolveAllUsers, List.filter_cons, hasTokenStr, jsTruthyStr,
            htok, Ne.symm h] using ih
        · by_cases heq : s = tok
          · subst heq
            simpa [resolveAllUsers, List.filter_cons, hasTokenStr, jsTruthyStr,
              htok, hse, List.count_cons] using ih
          · simpa [resolveAllUsers, List.filter_cons, hasTokenStr, jsTruthyStr,
              htok, hse, heq, List.count_cons] using ih

/-- Claim C1 witness: the multiplicity law evaluated on the concrete
duplicate-token directory. -/
theorem resolveAllUsers_keeps_multiplicity_witness :
    ((resolveAllUsers dupDirectory).length =
      (dupDirectory.filter (fun u => hasTokenStr u)).length ∧
    (resolveAllUsers dupDirectory).count "t1" =
      (dupDirectory.filter (fun u => u.token == some "t1")).length) ∧
    (resolveAllUsers dupDirectory).count "t1" = 2 :=
  ⟨resolveAllUsers_keeps_multiplicity dupDirectory "t1" (by decide), by decide⟩

/-- Claim C3 counterexample: when a persisted notification with
`data = \x7b\x7d` opens an edit session, the captured original data string is
"\x7b\x7d"; diffing a whitespace-only current data string "  " against that
snapshot (title and body unedited at "A"/"B") reports a DATA CHANGE — the
comparison is plain string inequality of the trimmed current text against
the captured serialization, not structural JSON equality, so the claimed
"no data change" is false here. -/
theorem diff_whitespace_data_reports_change :
    captureOriginalData (some (Json.obj [])) = "\x7b\x7d" ∧
    (diffFlags "A" "B" "\x7b\x7d" "A" "B" "  ").2.2 = true ∧
    diffFlags "A" "B" "\x7b\x7d" "A" "B" "  " = (false, false, true) := by
  refine ⟨?_, by decide, by decide⟩
  simp [captureOriginalData, stringifyPretty, stringifyAt, jsTruthy]

/-- Claim C3 (amended): the diff compares each field by string inequality
of the trimmed current text against the captured original string (the
original is not re-trimmed and data is never parsed for the comparison);
a snapshot diffed against unedited current values yields an empty change
set whenever the captured originals are trim-stable — in particular for
the spec's example (title "A", body "B", data "\x7b\x7d") — but a
whitespace-only current data string against an original data of \x7b\x7d is
reported as a data change. -/
theorem diff_unedited_empty_changeset (ot ob od : String)
    (h1 : jsTrim ot = ot) (h2 : jsTrim ob = ob) (h3 : jsTrim od = od) :
    diffFlags ot ob od ot ob od = (false, false, false) ∧
    (diffFlags "A" "B" "\x7b\x7d" "A" "B" "  ").2.2 = true := by
  refine ⟨?_, by decide⟩
  simp [diffFlags, h1, h2, h3]

/-- Claim C3 witness: the empty-changeset law evaluated at the spec's
concrete snapshot (title "A", body "B", data serialized to "\x7b\x7d"). -/
theorem diff_unedited_empty_changeset_witness :
    diffFlags "A" "B" "\x7b\x7d" "A" "B" "\x7b\x7d" = (false, false, false) ∧
    (diffFlags "A" "B" "\x7b\x7d" "A" "B" "  ").2.2 = true :=
  diff_unedited_empty_changeset "A" "B" "\x7b\x7d" (by decide) (by decide) (by decide)

/-- A pending scheduled notification being rescheduled to a date/time far
in the past. -/
def pastScheduleState : ScheduleState :=
  { notificationId := some "n1", sendAtDate := "2020-01-01",
    sendAtTime := "00:00", selectedUserGroup := "" }

/-- Claim C5 counterexample: at validation-time clock 2026-10-11T00:00 the
requested sendAt 2020-01-01T00:00 is strictly in the past (chronological
order on these fixed-format strings is their lexicographic order), yet
`handleUpdate` issues the upstream write carrying that sendAt and reports
success — there is no `InvalidSchedule` rejection. -/
theorem handleUpdate_accepts_past_sendAt :
    isoBefore (combineIso "2020-01-01" "00:00") "2026-10-11T00:00" = true ∧
    handleUpdate pastScheduleState "2026-10-11T00:00" false =
      ([ScheduleCall.updateOrCancelCall "n1" "2020-01-01T00:00" "allUsers"],
        ScheduleOutcome.updated) := by
  decide

/-- Claim C5 (amended): the reschedule handlers perform no past-time
validation — their result never depends on the validation-time clock, and
whenever a notification id and both date/time fields are supplied,
`handleUpdate` issues the upstream write with the converted sendAt (past
or not); the only local rejections are a missing id or missing date/time.
The same clock-independence holds for `handleScheduleExisting`. -/
theorem handleUpdate_ignores_clock (st : ScheduleState) (now now' : String)
    (uf : Bool) (hid : jsTruthyStr st.notificationId = true)
    (hd : st.sendAtDate ≠ "") (ht : st.sendAtTime ≠ "") :
    handleUpdate st now uf = handleUpdate st now' uf ∧
    (handleUpdate st now uf).1 =
      [ScheduleCall.updateOrCancelCall (st.notificationId.getD "")
        (combineIso st.sendAtDate st.sendAtTime)
        (jsStrOrStr st.selectedUserGroup "allUsers")] ∧
    (∀ (st' : ScheduleExistingState) (n1 n2 : String) (b : Bool),
      handleScheduleExisting st' n1 b = handleScheduleExisting st' n2 b) := by
  refine ⟨rfl, ?_, fun _ _ _ _ => rfl⟩
  simp [handleUpdate, hid, hd, ht]

/-- Claim C5 witness: the amended law evaluated on the concrete
past-dated state under two different clocks. -/
theorem handleUpdate_ignores_clock_witness :
    (handleUpdate pastScheduleState "2026-10-11T00:00" false =
      handleUpdate pastScheduleState "1970-01-01T00:00" false) ∧
    (handleUpdate pastScheduleState "2026-10-11T00:00" false).1 =
      [ScheduleCall.updateOrCancelCall "n1" "2020-01-01T00:00" "allUsers"] := by
  have h := handleUpdate_ignores_clock pastScheduleState "2026-10-11T00:00"
    "1970-01-01T00:00" false (by decide) (by decide) (by decide)
  exact ⟨h.1, h.2.1.trans (by decide)⟩

/-- Helper: once the local guards pass and the audience is non-empty,
`handleSend` issues the optional update followed by the dispatch. -/
theorem handleSend_dispatch_shape (st : SendState) (env : SendEnv)
    (hje : st.jsonError = "")
    (ht : jsTrim st.title ≠ "") (hb : jsTrim st.body ≠ "")
    (htk : (resolvedTokens st env).length ≠ 0) :
    handleSend st env =
      (preCalls st ++
        (if wasEditedFlag st && jsTruthyStr st.notificationId then
          [ApiCall.updateCall (updatePayloadOf st)] else []) ++
        [ApiCall.executeCall (executePayloadOf st env)],
       if env.executeFails then SendOutcome.sendFailed else SendOutcome.sent) := by
  unfold handleSend
  simp [hje, ht, hb, htk]

/-- Claim C4: whenever audience resolution produces zero tokens, the send
aborts before any dispatch call — no `executeCall` occurs in the issued
trace, the outcome is one of the local aborts, and under the entry guards
the result is exactly the pre-resolution trace with the empty-audience
error surfaced; `executeNotification` is never reached with an empty token
list. -/
theorem handleSend_empty_audience_aborts (st : SendState) (env : SendEnv)
    (h : resolvedTokens st env = []) :
    (∀ p, ApiCall.executeCall p ∉ (handleSend st env).1) ∧
    ((handleSend st env).2 = SendOutcome.jsonErrorAbort ∨
     (handleSend st env).2 = SendOutcome.missingFieldsAbort ∨
     (handleSend st env).2 = SendOutcome.emptyTokensAbort) ∧
    (st.jsonError = "" → jsTrim st.title ≠ "" → jsTrim st.body ≠ "" →
      handleSend st env = (preCalls st, SendOutcome.emptyTokensAbort)) := by
  have hlen : (resolvedTokens st env).length = 0 := by rw [h]; rfl
  have key : handleSend st env = ([], SendOutcome.jsonErrorAbort) ∨
      handleSend st env = ([], SendOutcome.missingFieldsAbort) ∨
      handleSend st env = (preCalls st, SendOutcome.emptyTokensAbort) := by
    unfold handleSend
    repeat' split
    all_goals
      first
        | exact Or.inl rfl
        | exact Or.inr (Or.inl rfl)
        | exact Or.inr (Or.inr rfl)
        | exact absurd hlen (by assumption)
  have hpre : ∀ p, ApiCall.executeCall p ∉ preCalls st := by
    intro p
    cases hrec : st.recipientOption <;> simp [preCalls, hrec]
  refine ⟨?_, ?_, ?_⟩
  · intro p
    rcases key with hk | hk | hk <;> rw [hk]
    · simp
    · simp
    · exact hpre p
  · rcases key with hk | hk | hk <;> rw [hk]
    · exact Or.inl rfl
    · exact Or.inr (Or.inl rfl)
    · exact Or.inr (Or.inr rfl)
  · intro hje htt hbb
    unfold handleSend
    simp [hje, htt, hbb, hlen]

/-- A send attempt whose custom recipient selection matches no user
record. -/
def emptySendState : SendState :=
  { title := "T", body := "B", jsonData := "", jsonError := "",
    recipientOption := .custom, users := [], selectedUsers := [],
    originalTitle := "T", originalBody := "B", originalData := "",
    notificationId := none }

/-- An environment where every network call succeeds. -/
def plainSendEnv : SendEnv :=
  { fetchUsersResult := [], updateFails := false, executeFails := false }

/-- Claim C4 witness: the abort evaluated on a concrete send whose
resolution yields no tokens. -/
theorem handleSend_empty_audience_aborts_witness :
    handleSend emptySendState plainSendEnv =
      (preCalls emptySendState, SendOutcome.emptyTokensAbort) :=
  (handleSend_empty_audience_aborts emptySendState plainSendEnv rfl).2.2
    rfl (by decide) (by decide)

/-- Claim C2: when a persisted notification (stored trimmed, so its
captured originals are trim-stable) is edited only in the body and sent,
the pre-dispatch update payload carries exactly the notification id and
the new body — title and data are absent from it — and the dispatch
payload's title/body are the current trimmed values, its body differing
from the stale persisted body. -/
theorem handleSend_minimal_update_fresh_dispatch (st : SendState) (env : SendEnv)
    (nid : String)
    (hje : st.jsonError = "")
    (ht : jsTrim st.title ≠ "") (hb : jsTrim st.body ≠ "")
    (htk : (resolvedTokens st env).length ≠ 0)
    (hT : st.title = st.originalTitle)
    (hTs : jsTrim st.originalTitle = st.originalTitle)
    (hD : st.jsonData = st.originalData)
    (hDs : jsTrim st.originalData = st.originalData)
    (hB : jsTrim st.body ≠ st.originalBody)
    (hid : st.notificationId = some nid) (hnid : nid ≠ "") :
    handleSend st env =
      (preCalls st ++
        [ApiCall.updateCall
          { notificationId := nid, title := none,
            body := some (jsTrim st.body), data := none },
         ApiCall.executeCall (executePayloadOf st env)],
       if env.executeFails then SendOutcome.sendFailed else SendOutcome.sent) ∧
    (executePayloadOf st env).title = jsTrim st.title ∧
    (executePayloadOf st env).body = jsTrim st.body ∧
    (executePayloadOf st env).body ≠ st.originalBody := by
  have f1 : (diffFlags st.originalTitle st.originalBody st.originalData
      st.title st.body st.jsonData).1 = false := by
    simp [diffFlags, hT, hTs]
  have f2 : (diffFlags st.originalTitle st.originalBody st.originalData
      st.title st.body st.jsonData).2.1 = true := by
    simp [diffFlags, hB]
  have f3 : (diffFlags st.originalTitle st.originalBody st.originalData
      st.title st.body st.jsonData).2.2 = false := by
    simp [diffFlags, hD, hDs]
  have hed : wasEditedFlag st = true := by
    simp [wasEditedFlag, f2]
  have hidt : jsTruthyStr st.notificationId = true := by
    simp [jsTruthyStr, hid, hnid]
  have hup : updatePayloadOf st =
      { notificationId := nid, title := none,
        body := some (jsTrim st.body), data := none } := by
    simp [updatePayloadOf, f1, f2, f3, hid]
  refine ⟨?_, rfl, rfl, hB⟩
  rw [handleSend_dispatch_shape st env hje ht hb htk, hed, hidt, hup]
  simp

/-- A pending notification whose body was edited from "old" to "new" in
the send modal, title and data untouched. -/
def editedSendState : SendState :=
  { title := "T", body := "new", jsonData := "", jsonError := "",
    recipientOption := .custom,
    users := [{ id := some "u1", userId := none, token := some "tok1" }],
    selectedUsers := ["u1"],
    originalTitle := "T", originalBody := "old", originalData := "",
    notificationId := some "n1" }

/-- Claim C2 witness: the edit-then-send law evaluated on the concrete
body-only edit ("old" to "new"). -/
theorem handleSend_minimal_update_fresh_dispatch_witness :
    (handleSend editedSendState plainSendEnv =
      (preCalls editedSendState ++
        [ApiCall.updateCall
          { notificationId := "n1", title := none,
            body := some (jsTrim editedSendState.body), data := none },
         ApiCall.executeCall (executePayloadOf editedSendState plainSendEnv)],
       if plainSendEnv.executeFails then SendOutcome.sendFailed else SendOutcome.sent) ∧
    (executePayloadOf editedSendState plainSendEnv).title = jsTrim editedSendState.title ∧
    (executePayloadOf editedSendState plainSendEnv).body = jsTrim editedSendState.body ∧
    (executePayloadOf editedSendState plainSendEnv).body ≠ editedSendState.originalBody) ∧
    (executePayloadOf editedSendState plainSendEnv).body = "new" :=
  ⟨handleSend_minimal_update_fresh_dispatch editedSendState plainSendEnv "n1"
    rfl (by decide) (by decide) (by decide) rfl (by decide) rfl (by decide)
    (by decide) rfl (by decide), by decide⟩

/-- Claim C7: when the diff reports an edit, an id is present and the
pre-dispatch partial update FAILS, the send does not abort — the update
failure is swallowed, the dispatch call is still issued right after the
update call, and its payload carries the current trimmed title/body and
the resolved tokens. -/
theorem handleSend_update_failure_swallowed (st : SendState) (env : SendEnv)
    (hje : st.jsonError = "")
    (ht : jsTrim st.title ≠ "") (hb : jsTrim st.body ≠ "")
    (htk : (resolvedTokens st env).length ≠ 0)
    (hed : wasEditedFlag st = true)
    (hid : jsTruthyStr st.notificationId = true)
    (hfail : env.updateFails = true) :
    handleSend st env =
      (preCalls st ++
        [ApiCall.updateCall (updatePayloadOf st),
         ApiCall.executeCall (executePayloadOf st env)],
       if env.executeFails then SendOutcome.sendFailed else SendOutcome.sent) ∧
    (executePayloadOf st env).title = jsTrim st.title ∧
    (executePayloadOf st env).body = jsTrim st.body ∧
    (executePayloadOf st env).targetTokens = resolvedTokens st env := by
  refine ⟨?_, rfl, rfl, rfl⟩
  rw [handleSend_dispatch_shape st env hje ht hb htk, hed, hid]
  simp

/-- A pending notification edited in the send modal (body changed), sent
to the full directory. -/
def editedFailState : SendState :=
  { title := "Hello", body := "World!", jsonData := "", jsonError := "",
    recipientOption := .all, users := [], selectedUsers := [],
    originalTitle := "Hello", originalBody := "World", originalData := "",
    notificationId := some "n2" }

/-- An environment whose directory has one tokened device and whose
`updateNotification` call rejects. -/
def failingUpdateEnv : SendEnv :=
  { fetchUsersResult := [{ id := none, userId := none, token := some "tok9" }],
    updateFails := true, executeFails := false }

/-- Claim C7 witness: the swallowed-update-failure law evaluated on a
concrete edited send whose update call fails. -/
theorem handleSend_update_failure_swallowed_witness :
    (handleSend editedFailState failingUpdateEnv =
      (preCalls editedFailState ++
        [ApiCall.updateCall (updatePayloadOf editedFailState),
         ApiCall.executeCall (executePayloadOf editedFailState failingUpdateEnv)],
       if failingUpdateEnv.executeFails then SendOutcome.sendFailed else SendOutcome.sent) ∧
    (executePayloadOf editedFailState failingUpdateEnv).title = jsTrim editedFailState.title ∧
    (executePayloadOf editedFailState failingUpdateEnv).body = jsTrim editedFailState.body ∧
    (executePayloadOf editedFailState failingUpdateEnv).targetTokens =
      resolvedTokens editedFailState failingUpdateEnv) ∧
    (handleSend editedFailState failingUpdateEnv).2 = SendOutcome.sent :=
  ⟨handleSend_update_failure_swallowed editedFailState failingUpdateEnv
    rfl (by decide) (by decide) (by decide) (by decide) (by decide) rfl, by decide⟩
